import Mathlib

/-!
Verification development for the FlyDrone voice-assistant webhook handler
(`src/functions/index.js`).  The JavaScript module is shallowly embedded:
pure string transforms become Lean functions on `List Char`, the
request/response flow becomes a pure function from an oracle environment
(platform inputs and collaborator results) to a trace of observable events
plus an outcome, and JavaScript `undefined` is modelled with `Option`.
-/

namespace FlyDrone

/-! ### The `ssml` tag function (index.js lines 93-102)

`ssml` escapes each interpolated input with four sequential global
`String.replace` calls (`&` to `&amp;`, `<` to `&lt;`, `>` to `&gt;`,
`"` to `&quot;`), interleaves the template strings with the escaped
inputs (`template.reduce`), then trims the result, collapses whitespace
runs to one space, and deletes a space before `<` and after `>`. -/

/-- JS regexp `\s` restricted to the ASCII whitespace characters that can
occur in this module's templates and inputs. -/
def isWs (c : Char) : Bool :=
  c = ' ' || c = '\t' || c = '\n' || c = '\r' || c = '\x0b' || c = '\x0c'

/-- `.replace(/&/g, '&amp;')` on the character list of a string. -/
def replaceAmp : List Char → List Char
  | [] => []
  | c :: s => if c = '&' then '&' :: 'a' :: 'm' :: 'p' :: ';' :: replaceAmp s
              else c :: replaceAmp s

/-- `.replace(/</g, '&lt;')`. -/
def replaceLt : List Char → List Char
  | [] => []
  | c :: s => if c = '<' then '&' :: 'l' :: 't' :: ';' :: replaceLt s
              else c :: replaceLt s

/-- `.replace(/>/g, '&gt;')`. -/
def replaceGt : List Char → List Char
  | [] => []
  | c :: s => if c = '>' then '&' :: 'g' :: 't' :: ';' :: replaceGt s
              else c :: replaceGt s

/-- `.replace(/"/g, '&quot;')`. -/
def replaceQuot : List Char → List Char
  | [] => []
  | c :: s => if c = '"' then '&' :: 'q' :: 'u' :: 'o' :: 't' :: ';' :: replaceQuot s
              else c :: replaceQuot s

/-- The input sanitizer of `ssml`: the four replacements in source order. -/
def escape (s : List Char) : List Char :=
  replaceQuot (replaceGt (replaceLt (replaceAmp s)))

/-- `String.prototype.trim` (both ends). -/
def trimWs (l : List Char) : List Char :=
  ((l.dropWhile isWs).reverse.dropWhile isWs).reverse

/-- `.replace(/\s+/g, ' ')`: every maximal whitespace run becomes one space. -/
def collapseWs : List Char → List Char
  | [] => []
  | [c] => if isWs c then [' '] else [c]
  | c :: d :: s =>
    if isWs c then
      if isWs d then collapseWs (d :: s) else ' ' :: collapseWs (d :: s)
    else c :: collapseWs (d :: s)

/-- `.replace(/ </g, '<')`: left-to-right single pass over the string. -/
def removeSpaceBeforeLt : List Char → List Char
  | [] => []
  | [c] => [c]
  | c :: d :: s =>
    if c = ' ' ∧ d = '<' then '<' :: removeSpaceBeforeLt s
    else c :: removeSpaceBeforeLt (d :: s)

/-- `.replace(/> /g, '>')`: left-to-right single pass over the string. -/
def removeSpaceAfterGt : List Char → List Char
  | [] => []
  | [c] => [c]
  | c :: d :: s =>
    if c = '>' ∧ d = ' ' then '>' :: removeSpaceAfterGt s
    else c :: removeSpaceAfterGt (d :: s)

/-- The whitespace-normalization tail of `ssml` (line 102), in source order:
trim, collapse `\s+`, drop a space before `<`, drop a space after `>`. -/
def normalizeWs (l : List Char) : List Char :=
  removeSpaceAfterGt (removeSpaceBeforeLt (collapseWs (trimWs l)))

/-- `template.reduce((out, str, i) => i ? out + escaped(inputs[i-1]) + str : str)`:
interleave the template strings with the escaped inputs.  For a tagged
template literal the template list has exactly one more entry than the
input list. -/
def weave : List (List Char) → List (List Char) → List Char
  | [], _ => []
  | [t], _ => t
  | t :: ts, [] => t ++ weave ts []
  | t :: ts, i :: is => t ++ escape i ++ weave ts is

/-- The `ssml` tag function applied to template strings and inputs. -/
def ssmlRender (template : List (List Char)) (inputs : List (List Char)) : List Char :=
  normalizeWs (weave template inputs)

/-- Modelled from the spec: the inverse XML-entity unescaping used by the
round-trip property of section 8 (the source has no unescape function).
Maps `&amp;` `&lt;` `&gt;` `&quot;` back to their characters. -/
def unescape : List Char → List Char
  | [] => []
  | '&' :: 'a' :: 'm' :: 'p' :: ';' :: s => '&' :: unescape s
  | '&' :: 'l' :: 't' :: ';' :: s => '<' :: unescape s
  | '&' :: 'g' :: 't' :: ';' :: s => '>' :: unescape s
  | '&' :: 'q' :: 'u' :: 'o' :: 't' :: ';' :: s => '"' :: unescape s
  | c :: s => c :: unescape s

/-- The per-character form of `escape`. -/
def encChar (c : Char) : List Char :=
  if c = '&' then ['&', 'a', 'm', 'p', ';']
  else if c = '<' then ['&', 'l', 't', ';']
  else if c = '>' then ['&', 'g', 't', ';']
  else if c = '"' then ['&', 'q', 'u', 'o', 't', ';']
  else [c]

/-- Prefix test on character lists: `startsWithL pat s` is true when `s`
starts with `pat` (used by entity-head checks and by the model of
`String.prototype.replace` with a string pattern). -/
def startsWithL : List Char → List Char → Bool
  | [], _ => true
  | _ :: _, [] => false
  | p :: ps, c :: cs => if c = p then startsWithL ps cs else false

/-- Every `&` in the list begins one of the four entities `&amp;` `&lt;`
`&gt;` `&quot;` (so no `&` is an unescaped occurrence). -/
def ampOk : List Char → Bool
  | [] => true
  | c :: s =>
    (if c = '&' then
      startsWithL ['a', 'm', 'p', ';'] s || startsWithL ['l', 't', ';'] s ||
      startsWithL ['g', 't', ';'] s || startsWithL ['q', 'u', 'o', 't', ';'] s
     else true) && ampOk s

/-- Occurrence count of a character in a character list. -/
def countc (c : Char) : List Char → Nat
  | [] => 0
  | d :: s => (if d = c then 1 else 0) + countc c s

/-- Concatenation of all the template strings of a template literal. -/
def joinAll : List (List Char) → List Char
  | [] => []
  | t :: ts => t ++ joinAll ts

theorem escape_cons_amp (s : List Char) :
    escape ('&' :: s) = '&' :: 'a' :: 'm' :: 'p' :: ';' :: escape s := rfl

theorem escape_cons_lt (s : List Char) :
    escape ('<' :: s) = '&' :: 'l' :: 't' :: ';' :: escape s := rfl

theorem escape_cons_gt (s : List Char) :
    escape ('>' :: s) = '&' :: 'g' :: 't' :: ';' :: escape s := rfl

theorem escape_cons_quot (s : List Char) :
    escape ('"' :: s) = '&' :: 'q' :: 'u' :: 'o' :: 't' :: ';' :: escape s := rfl

theorem escape_cons_other (c : Char) (s : List Char)
    (h1 : c ≠ '&') (h2 : c ≠ '<') (h3 : c ≠ '>') (h4 : c ≠ '"') :
    escape (c :: s) = c :: escape s := by
  unfold escape
  rw [show replaceAmp (c :: s) = c :: replaceAmp s by simp [replaceAmp, h1]]
  rw [show replaceLt (c :: replaceAmp s) = c :: replaceLt (replaceAmp s) by
        simp [replaceLt, h2]]
  rw [show replaceGt (c :: replaceLt (replaceAmp s))
        = c :: replaceGt (replaceLt (replaceAmp s)) by simp [replaceGt, h3]]
  simp [replaceQuot, h4]

theorem escape_cons (c : Char) (s : List Char) :
    escape (c :: s) = encChar c ++ escape s := by
  by_cases h1 : c = '&'
  · subst h1; exact escape_cons_amp s
  by_cases h2 : c = '<'
  · subst h2; exact escape_cons_lt s
  by_cases h3 : c = '>'
  · subst h3; exact escape_cons_gt s
  by_cases h4 : c = '"'
  · subst h4; exact escape_cons_quot s
  rw [escape_cons_other c s h1 h2 h3 h4]
  simp [encChar, h1, h2, h3, h4]

theorem unescape_cons_other (c : Char) (s : List Char) (h : c ≠ '&') :
    unescape (c :: s) = c :: unescape s := by
  simp [unescape, h]

theorem unescape_escape (s : List Char) : unescape (escape s) = s := by
  induction s with
  | nil => rfl
  | cons c s ih =>
    by_cases h1 : c = '&'
    · subst h1; rw [escape_cons_amp]
      show '&' :: unescape (escape s) = '&' :: s
      rw [ih]
    by_cases h2 : c = '<'
    · subst h2; rw [escape_cons_lt]
      show '<' :: unescape (escape s) = '<' :: s
      rw [ih]
    by_cases h3 : c = '>'
    · subst h3; rw [escape_cons_gt]
      show '>' :: unescape (escape s) = '>' :: s
      rw [ih]
    by_cases h4 : c = '"'
    · subst h4; rw [escape_cons_quot]
      show '"' :: unescape (escape s) = '"' :: s
      rw [ih]
    rw [escape_cons_other c s h1 h2 h3 h4, unescape_cons_other c _ h1, ih]

theorem encChar_not_mem (x c : Char)
    (hx : x = '<' ∨ x = '>' ∨ x = '"') : x ∉ encChar c := by
  by_cases h1 : c = '&'
  · subst h1; rcases hx with h | h | h <;> subst h <;> decide
  by_cases h2 : c = '<'
  · subst h2; rcases hx with h | h | h <;> subst h <;> decide
  by_cases h3 : c = '>'
  · subst h3; rcases hx with h | h | h <;> subst h <;> decide
  by_cases h4 : c = '"'
  · subst h4; rcases hx with h | h | h <;> subst h <;> decide
  simp only [encChar, if_neg h1, if_neg h2, if_neg h3, if_neg h4,
    List.mem_singleton]
  intro e
  rcases hx with h | h | h <;> subst h
  · exact h2 e.symm
  · exact h3 e.symm
  · exact h4 e.symm

theorem escape_not_mem (x : Char) (hx : x = '<' ∨ x = '>' ∨ x = '"') :
    ∀ s : List Char, x ∉ escape s := by
  intro s
  induction s with
  | nil => simp [escape, replaceAmp, replaceLt, replaceGt, replaceQuot]
  | cons c s ih =>
    rw [escape_cons]
    simp only [List.mem_append, not_or]
    exact ⟨encChar_not_mem x c hx, ih⟩

theorem ampOk_chunk_amp (t : List Char) :
    ampOk ('&' :: 'a' :: 'm' :: 'p' :: ';' :: t) = ampOk t := rfl

theorem ampOk_chunk_lt (t : List Char) :
    ampOk ('&' :: 'l' :: 't' :: ';' :: t) = ampOk t := rfl

theorem ampOk_chunk_gt (t : List Char) :
    ampOk ('&' :: 'g' :: 't' :: ';' :: t) = ampOk t := rfl

theorem ampOk_chunk_quot (t : List Char) :
    ampOk ('&' :: 'q' :: 'u' :: 'o' :: 't' :: ';' :: t) = ampOk t := rfl

theorem ampOk_cons_other (c : Char) (t : List Char) (h : c ≠ '&') :
    ampOk (c :: t) = ampOk t := by
  simp [ampOk, h]

theorem ampOk_escape (s : List Char) : ampOk (escape s) = true := by
  induction s with
  | nil => rfl
  | cons c s ih =>
    by_cases h1 : c = '&'
    · subst h1; rw [escape_cons_amp, ampOk_chunk_amp]; exact ih
    by_cases h2 : c = '<'
    · subst h2; rw [escape_cons_lt, ampOk_chunk_lt]; exact ih
    by_cases h3 : c = '>'
    · subst h3; rw [escape_cons_gt, ampOk_chunk_gt]; exact ih
    by_cases h4 : c = '"'
    · subst h4; rw [escape_cons_quot, ampOk_chunk_quot]; exact ih
    rw [escape_cons_other c s h1 h2 h3 h4, ampOk_cons_other c _ h1]; exact ih

example : escape "a&b".toList = "a&amp;b".toList := by decide
example : unescape (escape "<a> & \"b\"".toList) = "<a> & \"b\"".toList := by decide
example : ssmlRender ["  <speak> ".toList, " </speak> ".toList] ["x & y".toList]
    = "<speak>x &amp; y</speak>".toList := by decide

/-! ### Whitespace-normalization invariants of the `ssml` output -/

/-- No two adjacent characters of the list satisfy the pair predicate `p`. -/
def noPair (p : Char → Char → Bool) : List Char → Bool
  | c :: d :: s => !(p c d) && noPair p (d :: s)
  | _ => true

/-- Pair of two whitespace characters (a whitespace run of length two). -/
def wsPair (c d : Char) : Bool := isWs c && isWs d

/-- A space immediately followed by an opening angle bracket. -/
def spaceLtPair (c d : Char) : Bool := c = ' ' && d = '<'

/-- A closing angle bracket immediately followed by a space. -/
def gtSpacePair (c d : Char) : Bool := c = '>' && d = ' '

/-- Every maximal whitespace sequence has length one. -/
def noWsRun (l : List Char) : Bool := noPair wsPair l

/-- No space character stands immediately before a `<`. -/
def noSpaceLt (l : List Char) : Bool := noPair spaceLtPair l

/-- No space character stands immediately after a `>`. -/
def noGtSpace (l : List Char) : Bool := noPair gtSpacePair l

/-- Every whitespace character of the list is a plain space. -/
def wsIsSpace (l : List Char) : Bool := l.all (fun c => !(isWs c) || c = ' ')

theorem noPair_tail (p : Char → Char → Bool) (c : Char) (l : List Char)
    (h : noPair p (c :: l) = true) : noPair p l = true := by
  cases l with
  | nil => rfl
  | cons d s =>
    have h2 : (!(p c d) && noPair p (d :: s)) = true := h
    simp only [Bool.and_eq_true] at h2
    exact h2.2

theorem noPair_head (p : Char → Char → Bool) (c d : Char) (s : List Char)
    (h : noPair p (c :: d :: s) = true) : p c d = false := by
  have h2 : (!(p c d) && noPair p (d :: s)) = true := h
  simp only [Bool.and_eq_true, Bool.not_eq_true'] at h2
  exact h2.1

theorem noPair_cons_false (p : Char → Char → Bool) (c : Char) (l : List Char)
    (hc : ∀ d, p c d = false) : noPair p (c :: l) = noPair p l := by
  cases l with
  | nil => rfl
  | cons d s => simp [noPair, hc d]

theorem noPair_cons_true (p : Char → Char → Bool) (c d : Char) (s : List Char)
    (hpair : p c d = false) (hrest : noPair p (d :: s) = true) :
    noPair p (c :: d :: s) = true := by
  simp [noPair, hpair, hrest]

theorem isWs_space : isWs ' ' = true := by decide

theorem ne_space_of_not_ws (d : Char) (hd : isWs d = false) : d ≠ ' ' := by
  intro h; subst h; simp [isWs] at hd

theorem noWsRun_second (c d : Char) (s : List Char)
    (h : noPair wsPair (c :: d :: s) = true) (hc : isWs c = true) :
    isWs d = false := by
  have h2 := noPair_head wsPair c d s h
  simpa [wsPair, hc] using h2

theorem collapseWs_cons_not_ws (d : Char) (s : List Char) (h : isWs d = false) :
    collapseWs (d :: s) = d :: collapseWs s := by
  cases s with
  | nil => simp [collapseWs, h]
  | cons e t => simp [collapseWs, h]

theorem collapseWs_noWsRun (l : List Char) : noWsRun (collapseWs l) = true := by
  induction l using collapseWs.induct with
  | case1 => rfl
  | case2 c h => simp [collapseWs, h, noWsRun, noPair]
  | case3 c h => simp [collapseWs, h, noWsRun, noPair]
  | case4 c d s h1 h2 ih =>
    rw [show collapseWs (c :: d :: s) = collapseWs (d :: s) by
          simp [collapseWs, h1, h2]]
    exact ih
  | case5 c d s h1 h2 ih =>
    have hd : isWs d = false := by simpa using h2
    have hshape : collapseWs (d :: s) = d :: collapseWs s :=
      collapseWs_cons_not_ws d s hd
    rw [show collapseWs (c :: d :: s) = ' ' :: collapseWs (d :: s) by
          simp [collapseWs, h1, h2]]
    rw [hshape]
    refine noPair_cons_true wsPair ' ' d _ ?_ ?_
    · simp [wsPair, hd]
    · rw [← hshape]; exact ih
  | case6 c d s h1 ih =>
    have hc : isWs c = false := by simpa using h1
    rw [show collapseWs (c :: d :: s) = c :: collapseWs (d :: s) by
          simp [collapseWs, h1]]
    show noPair wsPair (c :: collapseWs (d :: s)) = true
    rw [noPair_cons_false wsPair c _ (fun e => by simp [wsPair, hc])]
    exact ih

theorem collapseWs_wsIsSpace (l : List Char) : wsIsSpace (collapseWs l) = true := by
  induction l using collapseWs.induct with
  | case1 => rfl
  | case2 c h => simp [collapseWs, h, wsIsSpace]
  | case3 c h => simp [collapseWs, h, wsIsSpace, List.all_cons]
  | case4 c d s h1 h2 ih =>
    rw [show collapseWs (c :: d :: s) = collapseWs (d :: s) by
          simp [collapseWs, h1, h2]]
    exact ih
  | case5 c d s h1 h2 ih =>
    rw [show collapseWs (c :: d :: s) = ' ' :: collapseWs (d :: s) by
          simp [collapseWs, h1, h2]]
    simpa [wsIsSpace, List.all_cons] using ih
  | case6 c d s h1 ih =>
    have hc : isWs c = false := by simpa using h1
    rw [show collapseWs (c :: d :: s) = c :: collapseWs (d :: s) by
          simp [collapseWs, h1]]
    simp only [wsIsSpace, List.all_cons, Bool.and_eq_true] at ih ⊢
    exact ⟨by simp [hc], ih⟩

theorem rsbl_cons_ne (d : Char) (s : List Char) (h : d ≠ ' ') :
    removeSpaceBeforeLt (d :: s) = d :: removeSpaceBeforeLt s := by
  cases s with
  | nil => rfl
  | cons e t => simp [removeSpaceBeforeLt, h]

theorem rsbl_noSpaceLt (l : List Char) (h : noWsRun l = true) :
    noSpaceLt (removeSpaceBeforeLt l) = true := by
  induction l using removeSpaceBeforeLt.induct with
  | case1 => rfl
  | case2 c => rfl
  | case3 c d s hcd ih =>
    rw [show removeSpaceBeforeLt (c :: d :: s) = '<' :: removeSpaceBeforeLt s by
          simp [removeSpaceBeforeLt, hcd]]
    show noPair spaceLtPair ('<' :: removeSpaceBeforeLt s) = true
    rw [noPair_cons_false spaceLtPair '<' _ (fun e => by simp [spaceLtPair])]
    exact ih (noPair_tail wsPair d s (noPair_tail wsPair c (d :: s) h))
  | case4 c d s hcd ih =>
    rw [show removeSpaceBeforeLt (c :: d :: s) = c :: removeSpaceBeforeLt (d :: s) by
          simp [removeSpaceBeforeLt, hcd]]
    have hrest : noSpaceLt (removeSpaceBeforeLt (d :: s)) = true :=
      ih (noPair_tail wsPair c (d :: s) h)
    by_cases hc : c = ' '
    · subst hc
      have hd : isWs d = false := noWsRun_second ' ' d s h isWs_space
      have hdne : d ≠ ' ' := ne_space_of_not_ws d hd
      have hdlt : d ≠ '<' := fun e => hcd ⟨rfl, e⟩
      rw [rsbl_cons_ne d s hdne]
      refine noPair_cons_true spaceLtPair ' ' d _ ?_ ?_
      · simp [spaceLtPair, hdlt]
      · rw [← rsbl_cons_ne d s hdne]; exact hrest
    · show noPair spaceLtPair (c :: removeSpaceBeforeLt (d :: s)) = true
      rw [noPair_cons_false spaceLtPair c _ (fun e => by simp [spaceLtPair, hc])]
      exact hrest

theorem rsbl_noWsRun (l : List Char) (h : noWsRun l = true) :
    noWsRun (removeSpaceBeforeLt l) = true := by
  induction l using removeSpaceBeforeLt.induct with
  | case1 => rfl
  | case2 c => rfl
  | case3 c d s hcd ih =>
    rw [show removeSpaceBeforeLt (c :: d :: s) = '<' :: removeSpaceBeforeLt s by
          simp [removeSpaceBeforeLt, hcd]]
    show noPair wsPair ('<' :: removeSpaceBeforeLt s) = true
    rw [noPair_cons_false wsPair '<' _ (fun e => by simp [wsPair, isWs])]
    exact ih (noPair_tail wsPair d s (noPair_tail wsPair c (d :: s) h))
  | case4 c d s hcd ih =>
    rw [show removeSpaceBeforeLt (c :: d :: s) = c :: removeSpaceBeforeLt (d :: s) by
          simp [removeSpaceBeforeLt, hcd]]
    have hrest : noWsRun (removeSpaceBeforeLt (d :: s)) = true :=
      ih (noPair_tail wsPair c (d :: s) h)
    by_cases hc : isWs c = true
    · have hd : isWs d = false := noWsRun_second c d s h hc
      have hdne : d ≠ ' ' := ne_space_of_not_ws d hd
      rw [rsbl_cons_ne d s hdne]
      refine noPair_cons_true wsPair c d _ ?_ ?_
      · simp [wsPair, hd]
      · rw [← rsbl_cons_ne d s hdne]; exact hrest
    · have hc2 : isWs c = false := by simpa using hc
      show noPair wsPair (c :: removeSpaceBeforeLt (d :: s)) = true
      rw [noPair_cons_false wsPair c _ (fun e => by simp [wsPair, hc2])]
      exact hrest

theorem rsbl_wsIsSpace (l : List Char) (h : wsIsSpace l = true) :
    wsIsSpace (removeSpaceBeforeLt l) = true := by
  induction l using removeSpaceBeforeLt.induct with
  | case1 => rfl
  | case2 c => exact h
  | case3 c d s hcd ih =>
    rw [show removeSpaceBeforeLt (c :: d :: s) = '<' :: removeSpaceBeforeLt s by
          simp [removeSpaceBeforeLt, hcd]]
    simp only [wsIsSpace, List.all_cons, Bool.and_eq_true] at h ⊢
    exact ⟨by simp [isWs], ih h.2.2⟩
  | case4 c d s hcd ih =>
    rw [show removeSpaceBeforeLt (c :: d :: s) = c :: removeSpaceBeforeLt (d :: s) by
          simp [removeSpaceBeforeLt, hcd]]
    simp only [wsIsSpace, List.all_cons, Bool.and_eq_true] at h ⊢
    refine ⟨h.1, ih ?_⟩
    simp only [wsIsSpace, List.all_cons, Bool.and_eq_true]
    exact h.2

theorem rsag_head (c : Char) (s : List Char) :
    ∃ t, removeSpaceAfterGt (c :: s) = c :: t := by
  cases s with
  | nil => exact ⟨[], rfl⟩
  | cons d u =>
    by_cases h : c = '>' ∧ d = ' '
    · refine ⟨removeSpaceAfterGt u, ?_⟩
      rw [show removeSpaceAfterGt (c :: d :: u) = '>' :: removeSpaceAfterGt u by
            simp [removeSpaceAfterGt, h]]
      rw [h.1]
    · exact ⟨removeSpaceAfterGt (d :: u), by simp [removeSpaceAfterGt, h]⟩

theorem rsag_noGtSpace (l : List Char) (h : noWsRun l = true) :
    noGtSpace (removeSpaceAfterGt l) = true := by
  induction l using removeSpaceAfterGt.induct with
  | case1 => rfl
  | case2 c => rfl
  | case3 c d s hcd ih =>
    rw [show removeSpaceAfterGt (c :: d :: s) = '>' :: removeSpaceAfterGt s by
          simp [removeSpaceAfterGt, hcd]]
    have hs : noWsRun s = true :=
      noPair_tail wsPair d s (noPair_tail wsPair c (d :: s) h)
    cases s with
    | nil => rfl
    | cons x u =>
      obtain ⟨t, ht⟩ := rsag_head x u
      rw [ht]
      have hx : isWs x = false := by
        have := noWsRun_second d x u (noPair_tail wsPair c (d :: x :: u) h)
          (by rw [hcd.2]; exact isWs_space)
        exact this
      refine noPair_cons_true gtSpacePair '>' x _ ?_ ?_
      · simp [gtSpacePair, ne_space_of_not_ws x hx]
      · rw [← ht]; exact ih hs
  | case4 c d s hcd ih =>
    rw [show removeSpaceAfterGt (c :: d :: s) = c :: removeSpaceAfterGt (d :: s) by
          simp [removeSpaceAfterGt, hcd]]
    obtain ⟨t, ht⟩ := rsag_head d s
    rw [ht]
    refine noPair_cons_true gtSpacePair c d _ ?_ ?_
    · by_cases hc : c = '>'
      · have hd : d ≠ ' ' := fun e => hcd ⟨hc, e⟩
        simp [gtSpacePair, hd]
      · simp [gtSpacePair, hc]
    · rw [← ht]; exact ih (noPair_tail wsPair c (d :: s) h)

theorem rsag_noWsRun (l : List Char) (h : noWsRun l = true) :
    noWsRun (removeSpaceAfterGt l) = true := by
  induction l using removeSpaceAfterGt.induct with
  | case1 => rfl
  | case2 c => rfl
  | case3 c d s hcd ih =>
    rw [show removeSpaceAfterGt (c :: d :: s) = '>' :: removeSpaceAfterGt s by
          simp [removeSpaceAfterGt, hcd]]
    show noPair wsPair ('>' :: removeSpaceAfterGt s) = true
    rw [noPair_cons_false wsPair '>' _ (fun e => by simp [wsPair, isWs])]
    exact ih (noPair_tail wsPair d s (noPair_tail wsPair c (d :: s) h))
  | case4 c d s hcd ih =>
    rw [show removeSpaceAfterGt (c :: d :: s) = c :: removeSpaceAfterGt (d :: s) by
          simp [removeSpaceAfterGt, hcd]]
    obtain ⟨t, ht⟩ := rsag_head d s
    rw [ht]
    refine noPair_cons_true wsPair c d _ (noPair_head wsPair c d s h) ?_
    rw [← ht]; exact ih (noPair_tail wsPair c (d :: s) h)

theorem rsag_noSpaceLt (l : List Char) (h : noSpaceLt l = true) :
    noSpaceLt (removeSpaceAfterGt l) = true := by
  induction l using removeSpaceAfterGt.induct with
  | case1 => rfl
  | case2 c => rfl
  | case3 c d s hcd ih =>
    rw [show removeSpaceAfterGt (c :: d :: s) = '>' :: removeSpaceAfterGt s by
          simp [removeSpaceAfterGt, hcd]]
    show noPair spaceLtPair ('>' :: removeSpaceAfterGt s) = true
    rw [noPair_cons_false spaceLtPair '>' _ (fun e => by simp [spaceLtPair])]
    exact ih (noPair_tail spaceLtPair d s (noPair_tail spaceLtPair c (d :: s) h))
  | case4 c d s hcd ih =>
    rw [show removeSpaceAfterGt (c :: d :: s) = c :: removeSpaceAfterGt (d :: s) by
          simp [removeSpaceAfterGt, hcd]]
    obtain ⟨t, ht⟩ := rsag_head d s
    rw [ht]
    refine noPair_cons_true spaceLtPair c d _ (noPair_head spaceLtPair c d s h) ?_
    rw [← ht]; exact ih (noPair_tail spaceLtPair c (d :: s) h)

theorem rsag_wsIsSpace (l : List Char) (h : wsIsSpace l = true) :
    wsIsSpace (removeSpaceAfterGt l) = true := by
  induction l using removeSpaceAfterGt.induct with
  | case1 => rfl
  | case2 c => exact h
  | case3 c d s hcd ih =>
    rw [show removeSpaceAfterGt (c :: d :: s) = '>' :: removeSpaceAfterGt s by
          simp [removeSpaceAfterGt, hcd]]
    simp only [wsIsSpace, List.all_cons, Bool.and_eq_true] at h ⊢
    exact ⟨by simp [isWs], ih h.2.2⟩
  | case4 c d s hcd ih =>
    rw [show removeSpaceAfterGt (c :: d :: s) = c :: removeSpaceAfterGt (d :: s) by
          simp [removeSpaceAfterGt, hcd]]
    simp only [wsIsSpace, List.all_cons, Bool.and_eq_true] at h ⊢
    refine ⟨h.1, ih ?_⟩
    simp only [wsIsSpace, List.all_cons, Bool.and_eq_true]
    exact h.2

theorem normalizeWs_invariants (l : List Char) :
    noWsRun (normalizeWs l) = true ∧ wsIsSpace (normalizeWs l) = true ∧
    noSpaceLt (normalizeWs l) = true ∧ noGtSpace (normalizeWs l) = true := by
  have h1 : noWsRun (collapseWs (trimWs l)) = true := collapseWs_noWsRun _
  have h2 : wsIsSpace (collapseWs (trimWs l)) = true := collapseWs_wsIsSpace _
  have h3 : noWsRun (removeSpaceBeforeLt (collapseWs (trimWs l))) = true :=
    rsbl_noWsRun _ h1
  have h4 : wsIsSpace (removeSpaceBeforeLt (collapseWs (trimWs l))) = true :=
    rsbl_wsIsSpace _ h2
  have h5 : noSpaceLt (removeSpaceBeforeLt (collapseWs (trimWs l))) = true :=
    rsbl_noSpaceLt _ h1
  exact ⟨rsag_noWsRun _ h3, rsag_wsIsSpace _ h4, rsag_noSpaceLt _ h5,
    rsag_noGtSpace _ h3⟩

/-! ### Character-count preservation through the `ssml` pipeline

Whitespace normalization only deletes or rewrites whitespace, so the
number of occurrences of any non-whitespace character is unchanged; and
`escape` leaves no `<`, `>` or `"` in an interpolated input, so every
such character of the rendered markup comes from the template strings. -/

theorem countc_cons (x d : Char) (t : List Char) :
    countc x (d :: t) = (if d = x then 1 else 0) + countc x t := rfl

theorem countc_append (x : Char) (a b : List Char) :
    countc x (a ++ b) = countc x a + countc x b := by
  induction a with
  | nil => simp [countc]
  | cons d t ih => rw [List.cons_append, countc_cons, countc_cons, ih]; omega

theorem countc_eq_zero_of_not_mem (x : Char) (l : List Char) (h : x ∉ l) :
    countc x l = 0 := by
  induction l with
  | nil => rfl
  | cons d t ih =>
    simp only [List.mem_cons, not_or] at h
    rw [countc_cons, if_neg (fun e => h.1 e.symm), ih h.2]

theorem ne_of_ws_of_not_ws (d x : Char) (hd : isWs d = true)
    (hx : isWs x = false) : d ≠ x := by
  intro e; rw [e, hx] at hd; exact Bool.noConfusion hd

theorem countc_dropWhileWs (x : Char) (hx : isWs x = false) (l : List Char) :
    countc x (l.dropWhile isWs) = countc x l := by
  induction l with
  | nil => rfl
  | cons d t ih =>
    by_cases hd : isWs d = true
    · rw [List.dropWhile_cons_of_pos hd, ih, countc_cons,
        if_neg (ne_of_ws_of_not_ws d x hd hx)]
      omega
    · rw [List.dropWhile_cons_of_neg hd]

theorem countc_reverse (x : Char) (l : List Char) :
    countc x l.reverse = countc x l := by
  induction l with
  | nil => rfl
  | cons d t ih =>
    have h0 : countc x ([] : List Char) = 0 := rfl
    rw [List.reverse_cons, countc_append, ih, countc_cons, countc_cons, h0]
    omega

theorem countc_trimWs (x : Char) (hx : isWs x = false) (l : List Char) :
    countc x (trimWs l) = countc x l := by
  unfold trimWs
  rw [countc_reverse, countc_dropWhileWs x hx, countc_reverse,
    countc_dropWhileWs x hx]

theorem countc_collapseWs (x : Char) (hx : isWs x = false) (l : List Char) :
    countc x (collapseWs l) = countc x l := by
  induction l using collapseWs.induct with
  | case1 => rfl
  | case2 c h =>
    rw [show collapseWs [c] = [' '] by simp [collapseWs, h]]
    rw [show countc x [' '] = 0 by
          rw [countc_cons, if_neg (ne_of_ws_of_not_ws ' ' x isWs_space hx)]; rfl]
    rw [countc_cons, if_neg (ne_of_ws_of_not_ws c x h hx)]; rfl
  | case3 c h => rw [show collapseWs [c] = [c] by simp [collapseWs, h]]
  | case4 c d s h1 h2 ih =>
    rw [show collapseWs (c :: d :: s) = collapseWs (d :: s) by
          simp [collapseWs, h1, h2]]
    rw [ih, countc_cons x c (d :: s), if_neg (ne_of_ws_of_not_ws c x h1 hx)]
    omega
  | case5 c d s h1 h2 ih =>
    rw [show collapseWs (c :: d :: s) = ' ' :: collapseWs (d :: s) by
          simp [collapseWs, h1, h2]]
    rw [countc_cons, if_neg (ne_of_ws_of_not_ws ' ' x isWs_space hx), ih,
      countc_cons x c (d :: s), if_neg (ne_of_ws_of_not_ws c x h1 hx)]
  | case6 c d s h1 ih =>
    rw [show collapseWs (c :: d :: s) = c :: collapseWs (d :: s) by
          simp [collapseWs, h1]]
    rw [countc_cons, ih, countc_cons x c (d :: s)]

theorem countc_rsbl (x : Char) (hx : isWs x = false) (l : List Char) :
    countc x (removeSpaceBeforeLt l) = countc x l := by
  induction l using removeSpaceBeforeLt.induct with
  | case1 => rfl
  | case2 c => rfl
  | case3 c d s hcd ih =>
    rw [show removeSpaceBeforeLt (c :: d :: s) = '<' :: removeSpaceBeforeLt s by
          simp [removeSpaceBeforeLt, hcd]]
    rw [countc_cons, ih, countc_cons x c (d :: s), countc_cons x d s, hcd.1,
      hcd.2, if_neg (ne_of_ws_of_not_ws ' ' x isWs_space hx)]
    omega
  | case4 c d s hcd ih =>
    rw [show removeSpaceBeforeLt (c :: d :: s) = c :: removeSpaceBeforeLt (d :: s) by
          simp [removeSpaceBeforeLt, hcd]]
    rw [countc_cons, ih, countc_cons x c (d :: s)]

theorem countc_rsag (x : Char) (hx : isWs x = false) (l : List Char) :
    countc x (removeSpaceAfterGt l) = countc x l := by
  induction l using removeSpaceAfterGt.induct with
  | case1 => rfl
  | case2 c => rfl
  | case3 c d s hcd ih =>
    rw [show removeSpaceAfterGt (c :: d :: s) = '>' :: removeSpaceAfterGt s by
          simp [removeSpaceAfterGt, hcd]]
    rw [countc_cons, ih, countc_cons x c (d :: s), countc_cons x d s, hcd.1,
      hcd.2, if_neg (ne_of_ws_of_not_ws ' ' x isWs_space hx)]
    omega
  | case4 c d s hcd ih =>
    rw [show removeSpaceAfterGt (c :: d :: s) = c :: removeSpaceAfterGt (d :: s) by
          simp [removeSpaceAfterGt, hcd]]
    rw [countc_cons, ih, countc_cons x c (d :: s)]

theorem countc_normalizeWs (x : Char) (hx : isWs x = false) (l : List Char) :
    countc x (normalizeWs l) = countc x l := by
  unfold normalizeWs
  rw [countc_rsag x hx, countc_rsbl x hx, countc_collapseWs x hx,
    countc_trimWs x hx]

theorem countc_escape_zero (x : Char) (hx : x = '<' ∨ x = '>' ∨ x = '"')
    (s : List Char) : countc x (escape s) = 0 :=
  countc_eq_zero_of_not_mem x _ (escape_not_mem x hx s)

theorem countc_weave (x : Char) (hx : x = '<' ∨ x = '>' ∨ x = '"') :
    ∀ (ts ins : List (List Char)),
      countc x (weave ts ins) = countc x (joinAll ts) := by
  intro ts ins
  induction ts, ins using weave.induct with
  | case1 ins => simp [weave, joinAll]
  | case2 t ins => simp [weave, joinAll]
  | case3 t ts hne ih =>
    obtain ⟨a, b, rfl⟩ : ∃ a b, ts = a :: b := by
      cases ts with
      | nil => exact absurd rfl hne
      | cons a b => exact ⟨a, b, rfl⟩
    rw [show weave (t :: a :: b) [] = t ++ weave (a :: b) [] from rfl,
      show joinAll (t :: a :: b) = t ++ joinAll (a :: b) from rfl,
      countc_append, countc_append, ih]
  | case4 t ts i is hne ih =>
    obtain ⟨a, b, rfl⟩ : ∃ a b, ts = a :: b := by
      cases ts with
      | nil => exact absurd rfl hne
      | cons a b => exact ⟨a, b, rfl⟩
    rw [show weave (t :: a :: b) (i :: is) = t ++ escape i ++ weave (a :: b) is
          from rfl,
      show joinAll (t :: a :: b) = t ++ joinAll (a :: b) from rfl,
      countc_append, countc_append, countc_append, ih,
      countc_escape_zero x hx i]
    omega

/-! ### Module constants (index.js lines 32-54) -/

namespace Actions

def WELCOME : String := "input.welcome"

def REQUEST_LOC_PERMISSION : String := "request.location.permission"

def HANDLE_DATA : String := "handle.data"

def UNHANDLED_DEEP_LINK : String := "deeplink.unknown"

def CUSTOM_ADDRESS : String := "address.address-fallback"

end Actions

/-- The AIRNOW URL template (line 41). -/
def AIRNOW_URL : List Char :=
  ("http://www.airnowapi.org/aq/observation/latLong/current/?format=application/json&latitude=<LAT>&longitude=<LONG>&distance=50&API_KEY=<KEY>").toList

/-- The module constant `APP_KEY` (line 42); it is referenced nowhere else
in the module. -/
def APP_KEY : String := ""

/-- The instance field `this.API_KEY` read in `fetchAirMap` (line 277); no
statement in the module ever assigns it, so it is always `undefined`. -/
def API_KEY : Option String := none

/-- JavaScript string coercion as performed by `String.prototype.replace`
on a non-string replacement value: `undefined` becomes the literal text
`"undefined"`. -/
def jsToString : Option String → String
  | none => "undefined"
  | some s => s

/-- `String.prototype.replace` with a string pattern: replaces only the
first occurrence, scanning left to right. -/
def replaceFirst : List Char → List Char → List Char → List Char
  | [], _, _ => []
  | c :: s, pat, repl =>
    if startsWithL pat (c :: s) then repl ++ (c :: s).drop pat.length
    else c :: replaceFirst s pat repl

/-- The advisory-service URL built in `fetchAirMap` (line 277):
`AIRNOW_URL.replace("<LAT>", lat).replace("<LONG>", long).replace("<KEY>", this.API_KEY)`. -/
def buildAirMapUrl (lat long : Option String) : List Char :=
  replaceFirst
    (replaceFirst
      (replaceFirst AIRNOW_URL ("<LAT>").toList (jsToString lat).toList)
      ("<LONG>").toList (jsToString long).toList)
    ("<KEY>").toList (jsToString API_KEY).toList

/-- The mutable query object hanging off the module-level `staticMapsURL`
(lines 50-54): `key` and `size` are set once at module load, `center` and
`markers` are assigned by `locationResponse` on every call. -/
structure StaticMapsQuery where
  key : String
  size : String
  center : Option String
  markers : Option String
  deriving DecidableEq, Repr

/-- `STATIC_MAPS_SIZE` (line 49). -/
def STATIC_MAPS_SIZE : String := "600x400"

/-- The module-level `staticMapsURL.query` value right after module load;
the maps key comes from deployment configuration and is opaque here. -/
def initialStaticMapsQuery (mapsKey : String) : StaticMapsQuery :=
  { key := mapsKey, size := STATIC_MAPS_SIZE, center := none, markers := none }

/-- The rich response assembled by `locationResponse` (lines 63-71). -/
structure RichResponse where
  speech : List Char
  cardImageCenter : Option String
  cardImageMarkers : Option String
  deriving DecidableEq, Repr

/-- `locationResponse` (lines 63-71): assigns `staticMapsURL.query.center`
and `staticMapsURL.query.markers` on the module-level object, then formats
the map URL and builds the rich response.  Returns the updated module
state together with the response. -/
def locationResponse (q : StaticMapsQuery) (city : String) (lat long : String)
    (speech : List Char) : StaticMapsQuery × RichResponse :=
  let q2 : StaticMapsQuery :=
    { q with center := some city,
             markers := some ("color:red|" ++ lat ++ "," ++ long) }
  (q2, { speech := speech, cardImageCenter := q2.center,
         cardImageMarkers := q2.markers })

/-- `COLOR_CODE` (lines 104-109) as a JavaScript object lookup: an
unrecognized key yields `undefined`. -/
def COLOR_CODE (color : String) : Option String :=
  if color = "red" then
    some "is strictly prohibited. Please change location and check again"
  else if color = "orange" then
    some "is restricted. Action is required to get authorization to fly your drone in this area"
  else if color = "yellow" then
    some "is restricted. Please check advisories and use caution when flying your drone"
  else if color = "green" then
    some "has no restrictions, but please use caution when flying your drone"
  else none

/-! ### Response templates (index.js lines 111-166)

Template strings are transcribed verbatim from the source, with
apostrophes written as `\x27`. -/

def greetUserTemplate : List (List Char) :=
  [("\n    <speak>\n      Welcome to Air Quality Assistant!\n      <break time=\"500ms\"/>\n  \t  We can get you information about Air Quality in your area from the United States EPA, Air Now Program\n\t  <break time=\"500ms\"/>\n      Do you want us to use your current location, or do you want to check an address?\n    </speak>\n  ").toList]

def greetUserText : List Char := ssmlRender greetUserTemplate []

def unhandledDeepLinksTemplate : List (List Char) :=
  [("\n    <speak>\n      We\x27re sorry, we didn\x27t understand ").toList,
   (". Please try again. \n    </speak>\n  ").toList]

def unhandledDeepLinksText (input : String) : List Char :=
  ssmlRender unhandledDeepLinksTemplate [input.toList]

def flyDroneErrorTemplate : List (List Char) :=
  [("\n    <speak>\n      Oops!\n      <break time=\"1s\"/>\n      Something went wrong, and we couldn\x27t get the information you asked for.\n\t  <break time=\"250ms\"/>\n      Please try again or check www.airnow.gov for more information.\n    </speak>\n  ").toList]

def flyDroneErrorText : List Char := ssmlRender flyDroneErrorTemplate []

def coarseLocationTemplate : List (List Char) :=
  [("\n    <speak>\n      We weren\x27t able to find your precise location using your device.\n\t  <break time=\"250ms\"/>\n      Your device\x27s current location ").toList,
   (" is not precise enough to return accurate information.\n\t  <break time=\"500ms\"/>\n\t  Please use a specific address instead.\n    </speak>\n  ").toList]

def coarseLocationText (city : String) : List Char :=
  ssmlRender coarseLocationTemplate [city.toList]

def noCoarseLocationTemplate : List (List Char) :=
  [("\n    <speak>\n      Oops!\n      <break time=\"1s\"/>\n      We didn\x27t see a location set in your device. \n\t  <break time=\"250ms\"/>\n      But you can try again with a specific address.\n    </speak>\n  ").toList]

def noCoarseLocationText : List Char := ssmlRender noCoarseLocationTemplate []

def sayLocationTemplate : List (List Char) :=
  [("\n\t      <speak>\n\t        Here are the results: <break time=\"500ms\"/>\n\t        Air Quality at ").toList,
   (" is ").toList,
   (".<break time=\"500ms\"/>\n\t        The Air Quality Index is ").toList,
   (". <sub alias=\"Particulate Matter 2.5\">PM2.5</sub>.\n\t      </speak>\n\t    ").toList]

/-! ### Request-flow data model -/

/-- Outcome of one JavaScript evaluation or of one settled promise. -/
inductive JsResult (α : Type) where
  | ok (value : α)
  | err (msg : String)
  deriving DecidableEq, Repr

/-- The two platform permission constants the module compares against. -/
inductive Permission where
  | precise
  | coarse
  deriving DecidableEq, Repr

/-- The fields of the parsed advisory-service body that `fetchAirMap`
reads: `info.data.advisory_color`, `info.data.weather.condition` and
`info.data.weather.wind.speed.toString()`. -/
structure AdvisoryBody where
  advisory_color : String
  condition : String
  windSpeed : String
  deriving DecidableEq, Repr

/-- Outcome of the single advisory HTTP request: a transport error (the
`error` callback argument is set and `response` is undefined), or a
response with a status code and a body that either parses to the expected
shape or does not. -/
inductive AdvisoryHttp where
  | transportError
  | httpResponse (status : Nat) (body : Option AdvisoryBody)
  deriving DecidableEq, Repr

/-- Oracle environment for one inbound request: the platform inputs and
the results the external collaborators would return.  `none` models a
JavaScript `undefined`; coordinates are carried in their decimal string
form. -/
structure Env where
  intent : Option String
  rawInput : String
  hasScreenOutput : Bool
  permissionGranted : Bool
  requestedPermission : Option Permission
  deviceCity : Option String
  deviceCoords : Option (String × String)
  reverseGeocodeResult : JsResult String
  geocodeResult : JsResult (String × String)
  advisory : AdvisoryHttp
  deriving DecidableEq, Repr

/-- The request-scoped mutable fields accumulated on the handler instance
(`this.DEFAULT_CITY`, `this.DEFAULT_LAT`, `this.DEFAULT_LONG`). -/
structure DroneState where
  DEFAULT_CITY : Option String
  DEFAULT_LAT : Option String
  DEFAULT_LONG : Option String
  deriving DecidableEq, Repr

/-- JavaScript truthiness of a string-valued field (`""` is falsy). -/
def strTruthy : Option String → Bool
  | none => false
  | some s => !(s = "")

/-- JavaScript truthiness of a number-valued field carried in decimal
string form (`0` is falsy). -/
def numTruthy : Option String → Bool
  | none => false
  | some s => !(s = "" || s = "0")

/-- One spoken response handed to `app.tell` or `app.ask`. -/
inductive Speech where
  | flyDroneError
  | greetUser
  | unhandledDeepLinks (raw : String)
  | coarseLocation (city : String)
  | noCoarseLocation
  | location (city : String) (lat long : String) (text : List Char)
  deriving DecidableEq, Repr

/-- The rendered markup of a spoken response. -/
def renderSpeech : Speech → List Char
  | .flyDroneError => flyDroneErrorText
  | .greetUser => greetUserText
  | .unhandledDeepLinks raw => unhandledDeepLinksText raw
  | .coarseLocation city => coarseLocationText city
  | .noCoarseLocation => noCoarseLocationText
  | .location _ _ _ text => text

/-- Observable events of one request: collaborator calls and responses. -/
inductive Event where
  | reverseGeocodeCall (lat long : String)
  | geocodeCall (address : String)
  | advisoryRequest (url : List Char)
  | tell (speech : Speech)
  | ask (speech : Speech)
  | askForPermission (perm : Permission)
  deriving DecidableEq, Repr

/-- Final fate of a request after `run` returns and every scheduled
callback has run: `quiet` means no uncaught error anywhere,
`orphanedRejection` a rejected promise that no caller awaits,
`asyncCrash` an exception thrown inside a detached callback, and
`syncCrash` a synchronous exception escaping `run` itself.  Only in the
`quiet` case preceded by a `tell`/`ask` does the user hear anything. -/
inductive Outcome where
  | quiet
  | orphanedRejection (msg : String)
  | asyncCrash (msg : String)
  | syncCrash (msg : String)
  deriving DecidableEq, Repr

structure RunResult where
  events : List Event
  outcome : Outcome
  deriving DecidableEq, Repr

/-- Value a handler method returns to `run`. -/
inductive HandlerResult where
  | sync
  | promiseOk (tail : Outcome)
  | promiseRejected (msg : String)
  | syncThrow (msg : String)
  deriving DecidableEq, Repr

/-- The unbound identifier `aqi` interpolated by `responses.sayLocation`
(line 119): no declaration in the module binds it. -/
def aqiBinding : Option String := none

/-- `responses.sayLocation` (lines 115-121).  Evaluating the tagged
template requires the identifiers `city`, `def` and `aqi` in that order;
`aqi` has no binding, so evaluation throws a `ReferenceError` before
`locationResponse` is ever invoked.  The `lat`, `long`, `weather` and
`wind` parameters are not referenced by the template text at all. -/
def sayLocation (city lat long : String) (defSentence : Option String)
    (weather wind : String) : JsResult Speech :=
  match aqiBinding with
  | none => .err "ReferenceError: aqi is not defined"
  | some aqi =>
    match defSentence with
    | none => .err "TypeError: inputs[i - 1].replace is not a function"
    | some dfn =>
      .ok (.location city lat long
        (ssmlRender sayLocationTemplate [city.toList, dfn.toList, aqi.toList]))

/-- What became of `fetchAirMap`: an early `Promise.reject` returned to the
caller (which no caller chains on), or an issued HTTP request whose
callback either told a response, left a rejected promise orphaned inside
the callback, or threw. -/
inductive FetchOutcome where
  | rejectedPromise (msg : String)
  | issuedTold
  | issuedOrphaned (msg : String)
  | issuedCallbackThrew (msg : String)
  deriving DecidableEq, Repr

/-- `FlyDrone.fetchAirMap` (lines 272-292).  On a 200 response with a
parseable body the callback evaluates `responses.sayLocation(...)` and
would pass the result to `app.tell`; on a non-200 response it constructs
`Promise.reject(...)` inside the callback, a rejection connected to
nothing; on a transport error `response` is undefined and the
`response.statusCode` log line throws inside the callback. -/
def fetchAirMap (st : DroneState) (adv : AdvisoryHttp) :
    List Event × FetchOutcome :=
  if !strTruthy st.DEFAULT_CITY &&
      (!numTruthy st.DEFAULT_LAT || !numTruthy st.DEFAULT_LONG) then
    ([], .rejectedPromise "We cannot resolve the location.")
  else
    let url := buildAirMapUrl st.DEFAULT_LAT st.DEFAULT_LONG
    match adv with
    | .transportError =>
      ([.advisoryRequest url],
        .issuedCallbackThrew "TypeError: cannot read statusCode of undefined")
    | .httpResponse status body =>
      if status = 200 then
        match body with
        | none =>
          ([.advisoryRequest url],
            .issuedCallbackThrew "SyntaxError: JSON.parse: unexpected body")
        | some b =>
          match sayLocation (jsToString st.DEFAULT_CITY)
              (jsToString st.DEFAULT_LAT) (jsToString st.DEFAULT_LONG)
              (COLOR_CODE b.advisory_color) b.condition b.windSpeed with
          | .err m => ([.advisoryRequest url], .issuedCallbackThrew m)
          | .ok sp => ([.advisoryRequest url, .tell sp], .issuedTold)
      else
        ([.advisoryRequest url],
          .issuedOrphaned "We cannot retrieve flight data at the moment")

/-- Residual asynchronous fate of a `fetchAirMap` invocation whose own
return value the caller ignores (both call sites invoke it without
chaining). -/
def fetchTailOutcome : FetchOutcome → Outcome
  | .rejectedPromise m => .orphanedRejection m
  | .issuedTold => .quiet
  | .issuedOrphaned m => .orphanedRejection m
  | .issuedCallbackThrew m => .asyncCrash m

/-- Handler for `Actions.WELCOME` (lines 294-296). -/
def welcomeHandler (_env : Env) : List Event × HandlerResult :=
  ([.ask .greetUser], .sync)

/-- Handler for `Actions.UNHANDLED_DEEP_LINK` (lines 298-300). -/
def unhandledDeepLinkHandler (env : Env) : List Event × HandlerResult :=
  ([.ask (.unhandledDeepLinks env.rawInput)], .sync)

/-- Handler for `Actions.REQUEST_LOC_PERMISSION` (lines 302-311): chooses
precise on a screen surface, coarse otherwise, stores the choice in the
session, and asks for the permission unless it is already granted (in
which case it falls through silently). -/
def requestLocPermissionHandler (env : Env) : List Event × HandlerResult :=
  let requestedPermission :=
    if env.hasScreenOutput then Permission.precise else Permission.coarse
  if !env.permissionGranted then
    ([.askForPermission requestedPermission], .sync)
  else ([], .sync)

/-- Handler for `Actions.CUSTOM_ADDRESS` (lines 313-323): geocodes the raw
utterance; on success stores the coordinates and invokes `fetchAirMap`
without chaining on its result, so the returned promise resolves no
matter what `fetchAirMap` did. -/
def customAddressHandler (env : Env) : List Event × HandlerResult :=
  match env.geocodeResult with
  | .err m => ([.geocodeCall env.rawInput], .promiseRejected m)
  | .ok (la, lo) =>
    let st : DroneState :=
      { DEFAULT_CITY := some env.rawInput, DEFAULT_LAT := some la,
        DEFAULT_LONG := some lo }
    let f := fetchAirMap st env.advisory
    (.geocodeCall env.rawInput :: f.1, .promiseOk (fetchTailOutcome f.2))

/-- Handler for `Actions.HANDLE_DATA` (lines 325-362). -/
def handleDataHandler (env : Env) : List Event × HandlerResult :=
  if !env.permissionGranted then
    ([], .promiseRejected "Permission not granted")
  else
    match env.requestedPermission with
    | some .coarse =>
      match env.deviceCity with
      | none => ([.tell .noCoarseLocation], .sync)
      | some city =>
        if city = "" then ([.tell .noCoarseLocation], .sync)
        else ([.tell (.coarseLocation city)], .sync)
    | some .precise =>
      match env.deviceCoords with
      | none => ([], .syncThrow "TypeError: cannot read latitude of undefined")
      | some (la, lo) =>
        match env.reverseGeocodeResult with
        | .err m => ([.reverseGeocodeCall la lo], .promiseRejected m)
        | .ok city =>
          let st : DroneState :=
            { DEFAULT_CITY := some city, DEFAULT_LAT := some la,
              DEFAULT_LONG := some lo }
          let f := fetchAirMap st env.advisory
          (.reverseGeocodeCall la lo :: f.1,
            .promiseOk (fetchTailOutcome f.2))
    | none => ([], .promiseRejected "Unrecognized permission")

/-- The intents the dispatch can resolve. -/
inductive ActionTag where
  | welcome
  | requestLocPermission
  | handleData
  | unhandledDeepLink
  | customAddress
  deriving DecidableEq, Repr

/-- JavaScript property lookup `map[action]` on the handler instance,
restricted to the five intent actions.  (A lookup of one of the class's
own method names would also succeed in JavaScript; the Dialogflow action
strings of this module contain dots and never collide with those.) -/
def lookupAction (a : String) : Option ActionTag :=
  if a = Actions.WELCOME then some .welcome
  else if a = Actions.REQUEST_LOC_PERMISSION then some .requestLocPermission
  else if a = Actions.HANDLE_DATA then some .handleData
  else if a = Actions.UNHANDLED_DEEP_LINK then some .unhandledDeepLink
  else if a = Actions.CUSTOM_ADDRESS then some .customAddress
  else none

def dispatch : ActionTag → Env → List Event × HandlerResult
  | .welcome => welcomeHandler
  | .requestLocPermission => requestLocPermissionHandler
  | .handleData => handleDataHandler
  | .unhandledDeepLink => unhandledDeepLinkHandler
  | .customAddress => customAddressHandler

/-- `FlyDrone.run` (lines 192-207): a falsy intent yields the generic
failure speech; otherwise `map[action]()` is invoked (throwing a
`TypeError` when the property is undefined), and only a returned value
that is a `Promise` gets a `.catch` that tells the generic failure
speech. -/
def run (env : Env) : RunResult :=
  match env.intent with
  | none => { events := [.tell .flyDroneError], outcome := .quiet }
  | some action =>
    if action = "" then { events := [.tell .flyDroneError], outcome := .quiet }
    else
      match lookupAction action with
      | none =>
        { events := [],
          outcome := .syncCrash "TypeError: map[action] is not a function" }
      | some tag =>
        let r := dispatch tag env
        match r.2 with
        | .sync => { events := r.1, outcome := .quiet }
        | .promiseOk tail => { events := r.1, outcome := tail }
        | .promiseRejected _ =>
          { events := r.1 ++ [.tell .flyDroneError], outcome := .quiet }
        | .syncThrow m => { events := r.1, outcome := .syncCrash m }

/-- Event classifiers used by the claims. -/
def isTell : Event → Bool
  | .tell _ => true
  | _ => false

def isAdvisoryRequest : Event → Bool
  | .advisoryRequest _ => true
  | _ => false

def isCollaboratorCall : Event → Bool
  | .reverseGeocodeCall _ _ => true
  | .geocodeCall _ => true
  | .advisoryRequest _ => true
  | _ => false

/-- Contiguous-substring test on character lists. -/
def containsSub (pat : List Char) : List Char → Bool
  | [] => startsWithL pat []
  | c :: t => startsWithL pat (c :: t) || containsSub pat t

/-- A fully concrete environment used to instantiate the universally
quantified claim theorems at specific inputs. -/
def baseEnv : Env :=
  { intent := none, rawInput := "", hasScreenOutput := true,
    permissionGranted := false, requestedPermission := none,
    deviceCity := none, deviceCoords := none,
    reverseGeocodeResult := .err "not consulted",
    geocodeResult := .err "not consulted",
    advisory := .transportError }

/-- The end-to-end environment of claim C1: precise permission granted,
device at (37.77, -122.42), reverse geocoding answering San Francisco,
advisory service answering 200 with green / Clear / wind 5. -/
def envC1 : Env :=
  { baseEnv with
    intent := some Actions.HANDLE_DATA,
    permissionGranted := true,
    requestedPermission := some .precise,
    deviceCoords := some ("37.77", "-122.42"),
    reverseGeocodeResult := .ok "San Francisco",
    advisory := .httpResponse 200
      (some { advisory_color := "green", condition := "Clear",
              windSpeed := "5" }) }

example : (run { baseEnv with intent := some Actions.HANDLE_DATA }).events
    = [.tell .flyDroneError] := by decide

example : (run envC1).outcome
    = .asyncCrash "ReferenceError: aqi is not defined" := by decide

/-! ### Claims -/

/-- C1 (code_bug evidence): in the end-to-end scenario with intent
handle-location-data, precise permission granted, coordinates
(37.77, -122.42), reverse geocoding answering "San Francisco" and the
advisory service answering 200 with color green, condition Clear and
wind 5, the program speaks nothing at all: the reverse geocode and the
advisory request are issued, but evaluating `responses.sayLocation`
throws a `ReferenceError` on the unbound identifier `aqi` inside the
advisory callback, so no response text — in particular none containing
"San Francisco", the green advisory sentence, "Clear" or "5" — is ever
delivered. -/
theorem c1_green_end_to_end_speaks_nothing :
    (run envC1).events =
      [.reverseGeocodeCall "37.77" "-122.42",
       .advisoryRequest (buildAirMapUrl (some "37.77") (some "-122.42"))] ∧
    (run envC1).events.filter isTell = [] ∧
    (run envC1).outcome = .asyncCrash "ReferenceError: aqi is not defined" ∧
    aqiBinding = none ∧
    sayLocation "San Francisco" "37.77" "-122.42" (COLOR_CODE "green")
        "Clear" "5"
      = .err "ReferenceError: aqi is not defined" := by
  exact ⟨by decide, by decide, by decide, rfl, rfl⟩

/-- C3: for every handle-location-data request without granted
permission, the handler rejects with "Permission not granted", `run`
catches the rejection and tells the generic failure prompt, and no
collaborator (geocoding or advisory) call is made. -/
theorem c3_permission_denied_generic_failure (env : Env)
    (hIntent : env.intent = some Actions.HANDLE_DATA)
    (hGranted : env.permissionGranted = false) :
    (run env).events = [.tell .flyDroneError] ∧
    (run env).events.filter isCollaboratorCall = [] ∧
    (run env).outcome = .quiet := by
  have h : run env = { events := [.tell .flyDroneError], outcome := .quiet } := by
    simp [run, hIntent, lookupAction, Actions.WELCOME,
      Actions.REQUEST_LOC_PERMISSION, Actions.HANDLE_DATA,
      Actions.UNHANDLED_DEEP_LINK, Actions.CUSTOM_ADDRESS, dispatch,
      handleDataHandler, hGranted]
  rw [h]
  exact ⟨rfl, by decide, rfl⟩

theorem c3_permission_denied_generic_failure_witness :
    (run { baseEnv with intent := some Actions.HANDLE_DATA }).events
      = [.tell .flyDroneError] ∧
    (run { baseEnv with intent := some Actions.HANDLE_DATA }).events.filter
        isCollaboratorCall = [] ∧
    (run { baseEnv with intent := some Actions.HANDLE_DATA }).outcome
      = .quiet :=
  c3_permission_denied_generic_failure _ rfl rfl

/-- C4: in the coarse branch of handle-location-data, an absent or empty
device city yields the no-coarse-location prompt and a non-empty device
city yields the imprecise-location caution prompt carrying that city; in
both cases no geocoding or advisory call happens, and the rendered
caution prompt for "Seattle" contains the text "Seattle". -/
theorem c4_coarse_branch_prompts (env : Env)
    (hIntent : env.intent = some Actions.HANDLE_DATA)
    (hGranted : env.permissionGranted = true)
    (hPerm : env.requestedPermission = some .coarse) :
    (env.deviceCity = none ∨ env.deviceCity = some "" →
      run env = { events := [.tell .noCoarseLocation], outcome := .quiet }) ∧
    (∀ city, env.deviceCity = some city → ¬ city = "" →
      run env =
        { events := [.tell (.coarseLocation city)], outcome := .quiet }) ∧
    (run env).events.filter isCollaboratorCall = [] ∧
    containsSub ("Seattle").toList
      (renderSpeech (.coarseLocation "Seattle")) = true := by
  refine ⟨?_, ?_, ?_, by decide⟩
  · rintro (h | h) <;>
      simp [run, hIntent, lookupAction, Actions.WELCOME,
        Actions.REQUEST_LOC_PERMISSION, Actions.HANDLE_DATA,
        Actions.UNHANDLED_DEEP_LINK, Actions.CUSTOM_ADDRESS, dispatch,
        handleDataHandler, hGranted, hPerm, h]
  · intro city hc hne
    simp [run, hIntent, lookupAction, Actions.WELCOME,
      Actions.REQUEST_LOC_PERMISSION, Actions.HANDLE_DATA,
      Actions.UNHANDLED_DEEP_LINK, Actions.CUSTOM_ADDRESS, dispatch,
      handleDataHandler, hGranted, hPerm, hc, hne]
  · rcases hdc : env.deviceCity with _ | city
    · have h : run env = { events := [.tell .noCoarseLocation], outcome := .quiet } := by
        simp [run, hIntent, lookupAction, Actions.WELCOME,
          Actions.REQUEST_LOC_PERMISSION, Actions.HANDLE_DATA,
          Actions.UNHANDLED_DEEP_LINK, Actions.CUSTOM_ADDRESS, dispatch,
          handleDataHandler, hGranted, hPerm, hdc]
      rw [h]; decide
    · by_cases hne : city = ""
      · subst hne
        have h : run env = { events := [.tell .noCoarseLocation], outcome := .quiet } := by
          simp [run, hIntent, lookupAction, Actions.WELCOME,
            Actions.REQUEST_LOC_PERMISSION, Actions.HANDLE_DATA,
            Actions.UNHANDLED_DEEP_LINK, Actions.CUSTOM_ADDRESS, dispatch,
            handleDataHandler, hGranted, hPerm, hdc]
        rw [h]; decide
      · have h : run env =
            { events := [.tell (.coarseLocation city)], outcome := .quiet } := by
          simp [run, hIntent, lookupAction, Actions.WELCOME,
            Actions.REQUEST_LOC_PERMISSION, Actions.HANDLE_DATA,
            Actions.UNHANDLED_DEEP_LINK, Actions.CUSTOM_ADDRESS, dispatch,
            handleDataHandler, hGranted, hPerm, hdc, hne]
        rw [h]
        simp [List.filter, isCollaboratorCall]

/-- The coarse-permission environment with device city "Seattle". -/
def envC4Seattle : Env :=
  { baseEnv with
    intent := some Actions.HANDLE_DATA,
    permissionGranted := true,
    requestedPermission := some .coarse,
    deviceCity := some "Seattle" }

/-- The coarse-permission environment with an empty device city. -/
def envC4Empty : Env :=
  { baseEnv with
    intent := some Actions.HANDLE_DATA,
    permissionGranted := true,
    requestedPermission := some .coarse,
    deviceCity := some "" }

theorem c4_coarse_branch_prompts_witness :
    run envC4Seattle
      = { events := [.tell (.coarseLocation "Seattle")], outcome := .quiet } ∧
    run envC4Empty
      = { events := [.tell .noCoarseLocation], outcome := .quiet } :=
  ⟨(c4_coarse_branch_prompts envC4Seattle rfl rfl rfl).2.1 "Seattle" rfl
      (by decide),
   (c4_coarse_branch_prompts envC4Empty rfl rfl rfl).1 (Or.inr rfl)⟩

/-- C2 (code_bug evidence): on every advisory-fetch failure — transport
error, non-200 status, or a 200 response with an unparseable body —
reached through the precise handle-location-data path, the failure never
reaches the response pipeline: nothing at all is told to the user (in
particular not the generic failure prompt), while exactly one advisory
request is issued and never retried, and the request does not end
quietly (the error is a detached rejection or a callback crash). -/
theorem c2_advisory_failure_never_reported (env : Env) (la lo city : String)
    (hIntent : env.intent = some Actions.HANDLE_DATA)
    (hGranted : env.permissionGranted = true)
    (hPerm : env.requestedPermission = some .precise)
    (hCoords : env.deviceCoords = some (la, lo))
    (hGeo : env.reverseGeocodeResult = .ok city)
    (hLat : numTruthy (some la) = true)
    (hLong : numTruthy (some lo) = true)
    (hFail : env.advisory = .transportError ∨
      ∃ status body, env.advisory = .httpResponse status body ∧
        (¬ status = 200 ∨ body = none)) :
    (run env).events.filter isTell = [] ∧
    ((run env).events.filter isAdvisoryRequest).length = 1 ∧
    ¬ (run env).outcome = .quiet := by
  rcases hFail with hAdv | ⟨status, body, hAdv, hsb⟩
  · have h : run env =
        { events := [.reverseGeocodeCall la lo,
            .advisoryRequest (buildAirMapUrl (some la) (some lo))],
          outcome := .asyncCrash
            "TypeError: cannot read statusCode of undefined" } := by
      simp [run, hIntent, lookupAction, Actions.WELCOME,
        Actions.REQUEST_LOC_PERMISSION, Actions.HANDLE_DATA,
        Actions.UNHANDLED_DEEP_LINK, Actions.CUSTOM_ADDRESS, dispatch,
        handleDataHandler, hGranted, hPerm, hCoords, hGeo, hAdv,
        fetchAirMap, hLat, hLong, fetchTailOutcome]
    rw [h]
    exact ⟨by simp [List.filter, isTell], by simp [List.filter, isAdvisoryRequest],
      by simp⟩
  · by_cases hs : status = 200
    · subst hs
      rcases hsb with hs | hb
      · exact absurd rfl hs
      · subst hb
        have h : run env =
            { events := [.reverseGeocodeCall la lo,
                .advisoryRequest (buildAirMapUrl (some la) (some lo))],
              outcome := .asyncCrash
                "SyntaxError: JSON.parse: unexpected body" } := by
          simp [run, hIntent, lookupAction, Actions.WELCOME,
            Actions.REQUEST_LOC_PERMISSION, Actions.HANDLE_DATA,
            Actions.UNHANDLED_DEEP_LINK, Actions.CUSTOM_ADDRESS, dispatch,
            handleDataHandler, hGranted, hPerm, hCoords, hGeo, hAdv,
            fetchAirMap, hLat, hLong, fetchTailOutcome]
        rw [h]
        exact ⟨by simp [List.filter, isTell],
          by simp [List.filter, isAdvisoryRequest], by simp⟩
    · have h : run env =
          { events := [.reverseGeocodeCall la lo,
              .advisoryRequest (buildAirMapUrl (some la) (some lo))],
            outcome := .orphanedRejection
              "We cannot retrieve flight data at the moment" } := by
        simp [run, hIntent, lookupAction, Actions.WELCOME,
          Actions.REQUEST_LOC_PERMISSION, Actions.HANDLE_DATA,
          Actions.UNHANDLED_DEEP_LINK, Actions.CUSTOM_ADDRESS, dispatch,
          handleDataHandler, hGranted, hPerm, hCoords, hGeo, hAdv,
          fetchAirMap, hLat, hLong, fetchTailOutcome, hs]
      rw [h]
      exact ⟨by simp [List.filter, isTell],
        by simp [List.filter, isAdvisoryRequest], by simp⟩

/-- The failing environment of claim C2: the precise path with the
advisory service answering HTTP 500. -/
def envC2 : Env :=
  { baseEnv with
    intent := some Actions.HANDLE_DATA,
    permissionGranted := true,
    requestedPermission := some .precise,
    deviceCoords := some ("37.77", "-122.42"),
    reverseGeocodeResult := .ok "San Francisco",
    advisory := .httpResponse 500 none }

theorem c2_advisory_failure_never_reported_witness :
    (run envC2).events.filter isTell = [] ∧
    ((run envC2).events.filter isAdvisoryRequest).length = 1 ∧
    ¬ (run envC2).outcome = .quiet :=
  c2_advisory_failure_never_reported envC2 "37.77" "-122.42" "San Francisco"
    rfl rfl rfl rfl rfl (by decide) (by decide)
    (Or.inr ⟨500, none, rfl, Or.inl (by decide)⟩)

/-- C7: given precise permission granted and device coordinates
(47.6, -122.3), with reverse geocoding answering some city, the
handle-location-data resolver performs exactly one reverse-geocode call
followed by exactly one advisory request, in that order, and no other
collaborator call. -/
theorem c7_precise_calls_in_order (env : Env) (city : String)
    (hIntent : env.intent = some Actions.HANDLE_DATA)
    (hGranted : env.permissionGranted = true)
    (hPerm : env.requestedPermission = some .precise)
    (hCoords : env.deviceCoords = some ("47.6", "-122.3"))
    (hGeo : env.reverseGeocodeResult = .ok city) :
    (run env).events.filter isCollaboratorCall =
      [.reverseGeocodeCall "47.6" "-122.3",
       .advisoryRequest (buildAirMapUrl (some "47.6") (some "-122.3"))] := by
  rcases hAdv : env.advisory with _ | ⟨status, body⟩
  · simp [run, hIntent, lookupAction, Actions.WELCOME,
      Actions.REQUEST_LOC_PERMISSION, Actions.HANDLE_DATA,
      Actions.UNHANDLED_DEEP_LINK, Actions.CUSTOM_ADDRESS, dispatch,
      handleDataHandler, hGranted, hPerm, hCoords, hGeo, hAdv, fetchAirMap,
      numTruthy, List.filter, isCollaboratorCall]
  · by_cases hs : status = 200
    · subst hs
      rcases body with _ | b
      · simp [run, hIntent, lookupAction, Actions.WELCOME,
          Actions.REQUEST_LOC_PERMISSION, Actions.HANDLE_DATA,
          Actions.UNHANDLED_DEEP_LINK, Actions.CUSTOM_ADDRESS, dispatch,
          handleDataHandler, hGranted, hPerm, hCoords, hGeo, hAdv,
          fetchAirMap, numTruthy, List.filter, isCollaboratorCall]
      · simp [run, hIntent, lookupAction, Actions.WELCOME,
          Actions.REQUEST_LOC_PERMISSION, Actions.HANDLE_DATA,
          Actions.UNHANDLED_DEEP_LINK, Actions.CUSTOM_ADDRESS, dispatch,
          handleDataHandler, hGranted, hPerm, hCoords, hGeo, hAdv,
          fetchAirMap, numTruthy, sayLocation, aqiBinding, List.filter,
          isCollaboratorCall]
    · simp [run, hIntent, lookupAction, Actions.WELCOME,
        Actions.REQUEST_LOC_PERMISSION, Actions.HANDLE_DATA,
        Actions.UNHANDLED_DEEP_LINK, Actions.CUSTOM_ADDRESS, dispatch,
        handleDataHandler, hGranted, hPerm, hCoords, hGeo, hAdv, fetchAirMap,
        numTruthy, hs, List.filter, isCollaboratorCall]

/-- The environment instantiating claim C7 at concrete inputs. -/
def envC7 : Env :=
  { baseEnv with
    intent := some Actions.HANDLE_DATA,
    permissionGranted := true,
    requestedPermission := some .precise,
    deviceCoords := some ("47.6", "-122.3"),
    reverseGeocodeResult := .ok "Seattle",
    advisory := .httpResponse 200
      (some { advisory_color := "green", condition := "Clear",
              windSpeed := "5" }) }

theorem c7_precise_calls_in_order_witness :
    (run envC7).events.filter isCollaboratorCall =
      [.reverseGeocodeCall "47.6" "-122.3",
       .advisoryRequest (buildAirMapUrl (some "47.6") (some "-122.3"))] :=
  c7_precise_calls_in_order envC7 "Seattle" rfl rfl rfl rfl rfl

/-- C8 (amended): a request whose intent is missing or empty receives the
generic spoken failure response; a request whose non-empty intent matches
no handler property crashes with an uncaught synchronous TypeError from
the dynamic `map[action]()` dispatch and produces no spoken response. -/
theorem c8_unrecognized_intent_behaviour (env : Env) :
    (env.intent = none ∨ env.intent = some "" →
      run env = { events := [.tell .flyDroneError], outcome := .quiet }) ∧
    (∀ a, env.intent = some a → ¬ a = "" → lookupAction a = none →
      run env = { events := [],
                  outcome := .syncCrash
                    "TypeError: map[action] is not a function" }) := by
  constructor
  · rintro (h | h) <;> simp [run, h]
  · intro a hi hne hl
    simp [run, hi, hne, hl]

/-- The unrecognized-intent environment of claim C8. -/
def envC8 : Env := { baseEnv with intent := some "weather.report" }

theorem c8_unrecognized_intent_behaviour_witness :
    run envC8 = { events := [],
                  outcome := .syncCrash
                    "TypeError: map[action] is not a function" } :=
  (c8_unrecognized_intent_behaviour envC8).2 "weather.report" rfl (by decide)
    (by decide)

/-- C8 counterexample: for the non-empty unrecognized intent
"weather.report" the handler does not produce the generic spoken failure
response (it produces no spoken response at all; the dispatch throws a
synchronous TypeError). -/
theorem c8_unrecognized_intent_counterexample :
    (run envC8).events.filter isTell = [] ∧
    (run envC8).outcome
      = .syncCrash "TypeError: map[action] is not a function" := by
  exact ⟨by decide, by decide⟩

/-- C9 counterexample: the helper `locationResponse` mutates module-level
state: one call with city "San Francisco" leaves the module-level
`staticMapsURL.query` different from its load-time value. -/
theorem c9_module_mutation_counterexample :
    ¬ ((locationResponse (initialStaticMapsQuery "maps-key") "San Francisco"
        "37.77" "-122.42" []).1 = initialStaticMapsQuery "maps-key") := by
  decide

/-- C9 (amended): handling a request leaves every module-level binding
unchanged except the `center` and `markers` fields of the module-level
`staticMapsURL.query` object, which `locationResponse` overwrites with
the current call's city and coordinates on every invocation — a piece of
module-scoped mutable state shared across requests. -/
theorem c9_locationResponse_mutates_only_query_fields
    (q : StaticMapsQuery) (city lat long : String) (speech : List Char) :
    (locationResponse q city lat long speech).1.key = q.key ∧
    (locationResponse q city lat long speech).1.size = q.size ∧
    (locationResponse q city lat long speech).1.center = some city ∧
    (locationResponse q city lat long speech).1.markers
      = some ("color:red|" ++ lat ++ "," ++ long) :=
  ⟨rfl, rfl, rfl, rfl⟩

/-- C5: for every input string containing one of the characters
`& < > "`, the escaped input contains no raw `<`, `>` or `"` at all and
every `&` in it begins one of the four XML entities (so no unescaped
occurrence of these characters comes from the input), applying the
inverse XML-entity unescaping to the escaped input recovers the original
text exactly, and in the markup rendered by the `ssml` tag function
every occurrence of `<`, `>` or `"` is accounted for by the template
strings alone. -/
theorem c5_escape_roundtrip_no_unescaped (s : List Char)
    (hs : '&' ∈ s ∨ '<' ∈ s ∨ '>' ∈ s ∨ '"' ∈ s) :
    '<' ∉ escape s ∧ '>' ∉ escape s ∧ '"' ∉ escape s ∧
    ampOk (escape s) = true ∧
    unescape (escape s) = s ∧
    (∀ (ts ins : List (List Char)) (x : Char),
      x = '<' ∨ x = '>' ∨ x = '"' →
      countc x (ssmlRender ts ins) = countc x (joinAll ts)) := by
  refine ⟨escape_not_mem '<' (Or.inl rfl) s,
    escape_not_mem '>' (Or.inr (Or.inl rfl)) s,
    escape_not_mem '"' (Or.inr (Or.inr rfl)) s,
    ampOk_escape s, unescape_escape s, ?_⟩
  intro ts ins x hx
  have hxw : isWs x = false := by rcases hx with h | h | h <;> subst h <;> decide
  show countc x (normalizeWs (weave ts ins)) = countc x (joinAll ts)
  rw [countc_normalizeWs x hxw, countc_weave x hx ts ins]

/-- The concrete input instantiating claim C5. -/
def sC5 : List Char := ("a  <b> & \"c\"").toList

theorem c5_escape_roundtrip_no_unescaped_witness :
    ('&' ∈ sC5 ∨ '<' ∈ sC5 ∨ '>' ∈ sC5 ∨ '"' ∈ sC5) ∧
    unescape (escape sC5) = sC5 ∧ ampOk (escape sC5) = true :=
  ⟨by decide,
   (c5_escape_roundtrip_no_unescaped sC5 (by decide)).2.2.2.2.1,
   (c5_escape_roundtrip_no_unescaped sC5 (by decide)).2.2.2.1⟩

/-- C6: for every template and every inputs list, the markup rendered by
the `ssml` tag function has every maximal whitespace sequence collapsed
to a single space (no two adjacent whitespace characters remain, and
every remaining whitespace character is a plain space), no space
immediately before a `<`, and no space immediately after a `>`. -/
theorem c6_ssml_whitespace_normalized (ts ins : List (List Char)) :
    noWsRun (ssmlRender ts ins) = true ∧
    wsIsSpace (ssmlRender ts ins) = true ∧
    noSpaceLt (ssmlRender ts ins) = true ∧
    noGtSpace (ssmlRender ts ins) = true :=
  normalizeWs_invariants (weave ts ins)

/-! ### The advisory URL construction (claim C10) -/

theorem startsWithL_self_append (p b : List Char) :
    startsWithL p (p ++ b) = true := by
  induction p with
  | nil => rfl
  | cons c ps ih => simp [startsWithL, ih]

/-- `String.prototype.replace` with a string pattern starting in `<`
replaces exactly the marker occurrence when the preceding text contains
no `<`. -/
theorem replaceFirst_at_marker (pt repl : List Char) :
    ∀ (a b : List Char), '<' ∉ a →
      replaceFirst (a ++ (('<' :: pt) ++ b)) ('<' :: pt) repl
        = a ++ (repl ++ b) := by
  intro a
  induction a with
  | nil =>
    intro b _
    have h1 : startsWithL ('<' :: pt) ('<' :: (pt ++ b)) = true := by
      simp [startsWithL, startsWithL_self_append]
    show replaceFirst ('<' :: (pt ++ b)) ('<' :: pt) repl = repl ++ b
    simp only [replaceFirst, h1, if_true]
    rw [show ('<' :: pt).length = pt.length + 1 from rfl, List.drop_succ_cons,
      List.drop_left]
  | cons c a2 ih =>
    intro b hmem
    have hc : ¬ c = '<' := by
      intro e
      exact hmem (by rw [e]; exact List.mem_cons_self '<' a2)
    have ha2 : '<' ∉ a2 := fun m => hmem (List.mem_cons_of_mem c m)
    have h1 : startsWithL ('<' :: pt) (c :: (a2 ++ (('<' :: pt) ++ b)))
        = false := by
      simp [startsWithL, hc]
    show replaceFirst (c :: (a2 ++ (('<' :: pt) ++ b))) ('<' :: pt) repl
        = c :: (a2 ++ (repl ++ b))
    simp only [replaceFirst, h1, Bool.false_eq_true, if_false]
    rw [ih b ha2]

/-- The text of the AIRNOW template up to the latitude marker. -/
def urlHead : String :=
  "http://www.airnowapi.org/aq/observation/latLong/current/?format=application/json&latitude="

/-- The text of the AIRNOW template between the two coordinate markers. -/
def urlLongSep : String := "&longitude="

/-- The tail of the issued URL: the fixed distance parameter and the
API_KEY parameter carrying the literal text `undefined`. -/
def urlTailUndefined : String := "&distance=50&API_KEY=undefined"

/-- C10: for every request reaching the advisory fetch (with coordinate
strings free of `<`, as every decimal coordinate is), the issued URL is
the AIRNOW template with `<LAT>` and `<LONG>` replaced by the
coordinates and `<KEY>` replaced by the string coercion of the
never-assigned instance field `API_KEY` — the literal text "undefined";
the module constant `APP_KEY` (the empty string) plays no part. -/
theorem c10_api_key_literal_undefined (lat long : String)
    (hlat : '<' ∉ lat.toList) (hlong : '<' ∉ long.toList) :
    buildAirMapUrl (some lat) (some long)
      = urlHead.toList ++ (lat.toList ++ (urlLongSep.toList
          ++ (long.toList ++ urlTailUndefined.toList))) ∧
    API_KEY = none ∧ jsToString API_KEY = "undefined" ∧ APP_KEY = "" := by
  refine ⟨?_, rfl, rfl, rfl⟩
  have e1 : AIRNOW_URL
      = urlHead.toList ++ (('<' :: ("LAT>").toList)
          ++ ("&longitude=<LONG>&distance=50&API_KEY=<KEY>").toList) := by
    decide
  have h1 : replaceFirst AIRNOW_URL ("<LAT>").toList lat.toList
      = urlHead.toList ++ (lat.toList
          ++ ("&longitude=<LONG>&distance=50&API_KEY=<KEY>").toList) := by
    rw [e1, show ("<LAT>").toList = '<' :: ("LAT>").toList from by decide]
    exact replaceFirst_at_marker _ _ _ _ (by decide)
  have e2 : urlHead.toList ++ (lat.toList
        ++ ("&longitude=<LONG>&distance=50&API_KEY=<KEY>").toList)
      = (urlHead.toList ++ (lat.toList ++ urlLongSep.toList))
          ++ (('<' :: ("LONG>").toList)
            ++ ("&distance=50&API_KEY=<KEY>").toList) := by
    rw [show ("&longitude=<LONG>&distance=50&API_KEY=<KEY>").toList
          = urlLongSep.toList ++ (('<' :: ("LONG>").toList)
              ++ ("&distance=50&API_KEY=<KEY>").toList) from by decide]
    simp [List.append_assoc]
  have h2 : replaceFirst (urlHead.toList ++ (lat.toList
        ++ ("&longitude=<LONG>&distance=50&API_KEY=<KEY>").toList))
          ("<LONG>").toList long.toList
      = (urlHead.toList ++ (lat.toList ++ urlLongSep.toList))
          ++ (long.toList ++ ("&distance=50&API_KEY=<KEY>").toList) := by
    rw [e2, show ("<LONG>").toList = '<' :: ("LONG>").toList from by decide]
    refine replaceFirst_at_marker _ _ _ _ ?_
    simp only [List.mem_append, not_or]
    exact ⟨by decide, hlat, by decide⟩
  have e3 : (urlHead.toList ++ (lat.toList ++ urlLongSep.toList))
        ++ (long.toList ++ ("&distance=50&API_KEY=<KEY>").toList)
      = ((urlHead.toList ++ (lat.toList ++ urlLongSep.toList))
          ++ (long.toList ++ ("&distance=50&API_KEY=").toList))
        ++ (('<' :: ("KEY>").toList) ++ ([] : List Char)) := by
    rw [show ("&distance=50&API_KEY=<KEY>").toList
          = ("&distance=50&API_KEY=").toList
              ++ (('<' :: ("KEY>").toList) ++ ([] : List Char)) from by decide]
    simp [List.append_assoc]
  have h3 : replaceFirst ((urlHead.toList ++ (lat.toList ++ urlLongSep.toList))
        ++ (long.toList ++ ("&distance=50&API_KEY=<KEY>").toList))
          ("<KEY>").toList ("undefined").toList
      = ((urlHead.toList ++ (lat.toList ++ urlLongSep.toList))
          ++ (long.toList ++ ("&distance=50&API_KEY=").toList))
        ++ (("undefined").toList ++ ([] : List Char)) := by
    rw [e3, show ("<KEY>").toList = '<' :: ("KEY>").toList from by decide]
    refine replaceFirst_at_marker _ _ _ _ ?_
    simp only [List.mem_append, not_or]
    exact ⟨⟨by decide, hlat, by decide⟩, hlong, by decide⟩
  show replaceFirst (replaceFirst (replaceFirst AIRNOW_URL ("<LAT>").toList
      lat.toList) ("<LONG>").toList long.toList) ("<KEY>").toList
      ("undefined").toList = _
  rw [h1, h2, h3, List.append_nil]
  simp only [List.append_assoc]
  rw [show ("&distance=50&API_KEY=").toList ++ ("undefined").toList
        = urlTailUndefined.toList from by decide]

theorem c10_api_key_literal_undefined_witness :
    ('<' ∉ ("37.77").toList) ∧
    buildAirMapUrl (some "37.77") (some "-122.42")
      = urlHead.toList ++ (("37.77").toList ++ (urlLongSep.toList
          ++ (("-122.42").toList ++ urlTailUndefined.toList))) :=
  ⟨by decide,
   (c10_api_key_literal_undefined "37.77" "-122.42" (by decide) (by decide)).1⟩

end FlyDrone
